import Mathlib

/-!
Shallow embedding of the port-monitor repository's core logic:
the socket-table parser (PortMonitor.parsePortOutput, getActivePorts),
the security classifier (portDatabase.js: getPortInfo, generateSecurityAlert),
the security analyzer (SecurityAnalyzer.analyzePorts, detectPortScanning,
removeFromWhitelist) and the retention cleanup (Database.cleanup).

Strings are modelled as lists of characters; JavaScript regular expressions
are hand-compiled into deterministic scanners (the concrete patterns in the
source never benefit from backtracking, as each greedy run is followed by a
character that cannot extend the run).  Wall-clock time is an explicit
parameter; millisecond timestamps are naturals with truncated subtraction,
which agrees with the source because a non-positive JavaScript difference
and a truncated-to-zero natural difference fail the same strict comparisons.
-/

abbrev Str := List Char

def tcpS : Str := "tcp".data

def udpS : Str := "udp".data

/-- JavaScript String.prototype.startsWith on character lists. -/
def strStarts : Str → Str → Bool
  | _, [] => true
  | [], _ :: _ => false
  | c :: cs, d :: ds => c = d && strStarts cs ds

/-- JavaScript String.prototype.includes on character lists. -/
def hasSub : Str → Str → Bool
  | [], pat => pat.isEmpty
  | c :: rest, pat => strStarts (c :: rest) pat || hasSub rest pat

/-- Match a literal at the head of the input, returning the remainder. -/
def stripLit : Str → Str → Option Str
  | [], s => some s
  | _ :: _, [] => none
  | c :: cs, d :: ds => if c = d then stripLit cs ds else none

/-- Maximal run of ASCII digits at the head of the input. -/
def takeDigits (s : Str) : Str := s.takeWhile Char.isDigit

def dropDigits (s : Str) : Str := s.dropWhile Char.isDigit

/-- Value of a digit string, as JavaScript parseInt on a digit-only match. -/
def digitsToNat (ds : Str) : Nat := ds.foldl (fun n c => n * 10 + (c.toNat - 48)) 0

def isWs (c : Char) : Bool := c.isWhitespace

def takeWs (s : Str) : Str := s.takeWhile isWs

def dropWs (s : Str) : Str := s.dropWhile isWs

/-- Generic leftmost-match scanner: try the position matcher at every suffix. -/
def scanFor (f : Str → Option α) : Str → Option α
  | [] => none
  | c :: rest =>
    match f (c :: rest) with
    | some v => some v
    | none => scanFor f rest

/-- One alternative of the wildcard-address port pattern
`(?:0\.0\.0\.0|127\.0\.0\.1|\*|::|\[::\]):(\d+)`:
the literal, a colon, then one or more digits (the captured port). -/
def pat1Lit (lit : Str) (s : Str) : Option Nat :=
  match stripLit lit s with
  | none => none
  | some rest =>
    match rest with
    | ':' :: after =>
      if (takeDigits after).isEmpty then none else some (digitsToNat (takeDigits after))
    | _ => none

/-- First port pattern of parsePortOutput, tried at one position;
alternatives in the source's order. -/
def pat1At (s : Str) : Option Nat :=
  match pat1Lit ("0.0.0.0".data) s with
  | some v => some v
  | none =>
    match pat1Lit ("127.0.0.1".data) s with
    | some v => some v
    | none =>
      match pat1Lit ("*".data) s with
      | some v => some v
      | none =>
        match pat1Lit ("::".data) s with
        | some v => some v
        | none => pat1Lit ("[::]".data) s

/-- One `\d+\.` group of an IPv4 dotted quad: maximal digits then a dot. -/
def ipv4Chunk (s : Str) : Option Str :=
  if (takeDigits s).isEmpty then none
  else
    match dropDigits s with
    | '.' :: rest => some rest
    | _ => none

/-- Second port pattern `\s+(?:\d+\.){3}\d+:(\d+)\s+`, tried at one position. -/
def pat2At (s : Str) : Option Nat :=
  if (takeWs s).isEmpty then none
  else
    match ipv4Chunk (dropWs s) with
    | none => none
    | some s2 =>
      match ipv4Chunk s2 with
      | none => none
      | some s3 =>
        match ipv4Chunk s3 with
        | none => none
        | some s4 =>
          if (takeDigits s4).isEmpty then none
          else
            match dropDigits s4 with
            | ':' :: s5 =>
              if (takeDigits s5).isEmpty then none
              else
                match dropDigits s5 with
                | c :: _ => if isWs c then some (digitsToNat (takeDigits s5)) else none
                | [] => none
            | _ => none

/-- Third port pattern `:(\d+)\s+(?:\d+\.){3}\d+:\*`, tried at one position. -/
def pat3At (s : Str) : Option Nat :=
  match s with
  | ':' :: s1 =>
    if (takeDigits s1).isEmpty then none
    else
      if (takeWs (dropDigits s1)).isEmpty then none
      else
        match ipv4Chunk (dropWs (dropDigits s1)) with
        | none => none
        | some s3 =>
          match ipv4Chunk s3 with
          | none => none
          | some s4 =>
            match ipv4Chunk s4 with
            | none => none
            | some s5 =>
              if (takeDigits s5).isEmpty then none
              else
                match dropDigits s5 with
                | ':' :: '*' :: _ => some (digitsToNat (takeDigits s1))
                | _ => none
  | _ => none

/-- Port extraction of parsePortOutput: the three patterns in order, each
searched leftmost over the whole line, first pattern with a match wins. -/
def extractPort (line : Str) : Option Nat :=
  match scanFor pat1At line with
  | some v => some v
  | none =>
    match scanFor pat2At line with
    | some v => some v
    | none => scanFor pat3At line

/-- Process pattern `users:\(\("([^"]+)",pid=(\d+)` at one position. -/
def procPat1At (s : Str) : Option (Str × Option Nat) :=
  match stripLit ("users:((\"".data) s with
  | none => none
  | some s1 =>
    if (s1.takeWhile (fun c => c ≠ '"')).isEmpty then none
    else
      match stripLit ("\",pid=".data) (s1.dropWhile (fun c => c ≠ '"')) with
      | none => none
      | some s2 =>
        if (takeDigits s2).isEmpty then none
        else some (s1.takeWhile (fun c => c ≠ '"'), some (digitsToNat (takeDigits s2)))

/-- Process pattern `(\d+)\/(\S+)` (netstat form `pid/process`) at one position. -/
def procPat2At (s : Str) : Option (Str × Option Nat) :=
  if (takeDigits s).isEmpty then none
  else
    match dropDigits s with
    | '/' :: s1 =>
      if (s1.takeWhile (fun c => !isWs c)).isEmpty then none
      else some (s1.takeWhile (fun c => !isWs c), some (digitsToNat (takeDigits s)))
    | _ => none

/-- Process pattern `"([^"]+)",pid=(\d+)` at one position. -/
def procPat3At (s : Str) : Option (Str × Option Nat) :=
  match s with
  | '"' :: s1 =>
    if (s1.takeWhile (fun c => c ≠ '"')).isEmpty then none
    else
      match stripLit ("\",pid=".data) (s1.dropWhile (fun c => c ≠ '"')) with
      | none => none
      | some s2 =>
        if (takeDigits s2).isEmpty then none
        else some (s1.takeWhile (fun c => c ≠ '"'), some (digitsToNat (takeDigits s2)))
  | _ => none

/-- Process pattern `users:\(\("([^"]+)"` (no pid group) at one position. -/
def procPat4At (s : Str) : Option (Str × Option Nat) :=
  match stripLit ("users:((\"".data) s with
  | none => none
  | some s1 =>
    if (s1.takeWhile (fun c => c ≠ '"')).isEmpty then none
    else
      match s1.dropWhile (fun c => c ≠ '"') with
      | '"' :: _ => some (s1.takeWhile (fun c => c ≠ '"'), none)
      | _ => none

/-- Process and pid extraction: the four patterns in the source's order;
the netstat pattern captures pid before process, the others the reverse. -/
def extractProc (line : Str) : Option (Str × Option Nat) :=
  match scanFor procPat1At line with
  | some r => some r
  | none =>
    match scanFor procPat2At line with
    | some r => some r
    | none =>
      match scanFor procPat3At line with
      | some r => some r
      | none => scanFor procPat4At line

/-- The dotted quad of the address pattern, returning matched text and rest. -/
def ipv4Take (s : Str) : Option (Str × Str) :=
  match ipv4Chunk s with
  | none => none
  | some s2 =>
    match ipv4Chunk s2 with
    | none => none
    | some s3 =>
      match ipv4Chunk s3 with
      | none => none
      | some s4 =>
        if (takeDigits s4).isEmpty then none
        else
          some (takeDigits s ++ '.' :: (takeDigits s2 ++ '.' :: (takeDigits s3 ++ '.' :: takeDigits s4)),
                dropDigits s4)

/-- One literal alternative of the address pattern, followed by colon+digits. -/
def addrLit (lit : Str) (s : Str) : Option Str :=
  match stripLit lit s with
  | none => none
  | some rest =>
    match rest with
    | ':' :: after => if (takeDigits after).isEmpty then none else some lit
    | _ => none

/-- Address pattern `((?:\d+\.){3}\d+|\*|::|\[::\]):(\d+)` at one position,
returning the first capture group. -/
def addrAt (s : Str) : Option Str :=
  match ipv4Take s with
  | some (ip, rest) =>
    match rest with
    | ':' :: after => if (takeDigits after).isEmpty then none else some ip
    | _ =>
      match addrLit ("*".data) s with
      | some a => some a
      | none =>
        match addrLit ("::".data) s with
        | some a => some a
        | none => addrLit ("[::]".data) s
  | none =>
    match addrLit ("*".data) s with
    | some a => some a
    | none =>
      match addrLit ("::".data) s with
      | some a => some a
      | none => addrLit ("[::]".data) s

def extractAddr (line : Str) : Option Str := scanFor addrAt line

/-- PortMonitor.identifyPortService: well-known-port fallback table. -/
def identifyPortService (port : Nat) : Str :=
  match port with
  | 22 => "ssh".data
  | 53 => "dns".data
  | 80 => "http".data
  | 443 => "https".data
  | 631 => "cups".data
  | 3000 => "node".data
  | 3306 => "mysql".data
  | 5432 => "postgresql".data
  | 6379 => "redis".data
  | 8000 => "http-alt".data
  | 8080 => "http-proxy".data
  | 8888 => "http-alt".data
  | 10486 => "vscode".data
  | 27017 => "mongodb".data
  | 53769 => "unknown".data
  | _ => "unknown".data

structure PortRecord where
  port : Nat
  protocol : Str
  process : Str
  pid : Option Nat
  address : Str
  timestamp : Nat
  deriving Repr, DecidableEq

/-- JavaScript `pid || null`: a zero pid is coerced to null. -/
def normPid : Option Nat → Option Nat
  | some 0 => none
  | x => x

/-- Split on newline characters, as String.prototype.split. -/
def splitLinesAux : Str → Str → List Str
  | [], cur => [cur.reverse]
  | '\n' :: rest, cur => cur.reverse :: splitLinesAux rest []
  | c :: rest, cur => splitLinesAux rest (c :: cur)

def splitLines (s : Str) : List Str := splitLinesAux s []

/-- The `filter(line => line.trim())` step keeps lines with a non-space char. -/
def keptLines (s : Str) : List Str :=
  (splitLines s).filter (fun l => l.any (fun c => !isWs c))

def protoOfLine (line : Str) : Option Str :=
  if hasSub line tcpS then some tcpS
  else if hasSub line udpS then some udpS
  else none

/-- Dedup key, the source's template string `protocol-port`. -/
def portKeyStr (protocol : Str) (port : Nat) : Str :=
  protocol ++ '-' :: (Nat.repr port).data

/-- Normalized bind address: `*` and anything containing `::` become 0.0.0.0. -/
def normAddr (a : Str) : Str :=
  if a = ("*".data) || hasSub a ("::".data) then "0.0.0.0".data else a

/-- The per-line loop of PortMonitor.parsePortOutput, with the seen-key set
and the accumulated record list made explicit. -/
def parseLoop (now : Nat) : List Str → List Str → List PortRecord → List PortRecord
  | [], _, acc => acc
  | line :: rest, seen, acc =>
    if hasSub line ("Proto".data) || hasSub line ("Active".data) then
      parseLoop now rest seen acc
    else
      match protoOfLine line with
      | none => parseLoop now rest seen acc
      | some protocol =>
        match extractPort line with
        | none => parseLoop now rest seen acc
        | some port =>
          if port = 0 then parseLoop now rest seen acc
          else
            if seen.contains (portKeyStr protocol port) then parseLoop now rest seen acc
            else
              parseLoop now rest (portKeyStr protocol port :: seen)
                (acc ++ [{ port := port
                           protocol := protocol
                           process :=
                             match extractProc line with
                             | some (pr, _) => if pr.isEmpty then "unknown".data else pr
                             | none => identifyPortService port
                           pid :=
                             match extractProc line with
                             | some (_, pd) => normPid pd
                             | none => none
                           address :=
                             match extractAddr line with
                             | some a => if (normAddr a).isEmpty then "0.0.0.0".data else normAddr a
                             | none => "0.0.0.0".data
                           timestamp := now }])

/-- Stable insertion into a port-sorted list: equal ports keep earlier
elements first, matching the stable comparator sort of the source. -/
def insertByPort (r : PortRecord) : List PortRecord → List PortRecord
  | [] => [r]
  | x :: xs => if r.port ≤ x.port then r :: x :: xs else x :: insertByPort r xs

def sortByPort : List PortRecord → List PortRecord
  | [] => []
  | x :: xs => insertByPort x (sortByPort xs)

/-- PortMonitor.parsePortOutput: split into lines, parse each, dedup by
(protocol, port), sort ascending by port.  The clock is explicit; the
source stamps each record with the time of the call. -/
def parsePortOutput (now : Nat) (output : Str) : List PortRecord :=
  sortByPort (parseLoop now (keptLines output) [] [])

structure MonitorState where
  cachedPorts : List PortRecord
  lastUpdate : Nat
  deriving Repr, DecidableEq

/-- PortMonitor.getActivePorts.  The two external commands are explicit
inputs: none models a failed invocation.  The source catches every failure
path and falls back to the cache, so the embedding is a total function. -/
def getActivePorts (st : MonitorState) (now : Nat)
    (primary secondary : Option Str) : List PortRecord × MonitorState :=
  if now - st.lastUpdate < 5000 && st.cachedPorts.length > 0 then
    (st.cachedPorts, st)
  else
    match primary with
    | some out => (parsePortOutput now out, ⟨parsePortOutput now out, now⟩)
    | none =>
      match secondary with
      | some out => (parsePortOutput now out, ⟨parsePortOutput now out, now⟩)
      | none => (st.cachedPorts, st)

/-! ## portDatabase.js: static knowledge table and classifier -/

structure KnownPort where
  service : Str
  description : Str
  protocol : Str
  risk : Str
  category : Str
  recommendations : List Str
  commonProcesses : List Str
  deriving Repr, DecidableEq

/-- The commonPorts object literal.  The source writes port 22 twice (SSH,
then SFTP); under the object-literal semantics the later entry wins, so the
lookup for 22 yields the SFTP entry. -/
def commonPorts (port : Nat) : Option KnownPort :=
  match port with
  | 80 => some
    { service := "HTTP".data
      description := "Hypertext Transfer Protocol - Unencrypted web traffic".data
      protocol := "tcp".data
      risk := "medium".data
      category := "web".data
      recommendations :=
        [ "Use HTTPS (Port 443) instead of HTTP".data
        , "Implement Web Application Firewall (WAF)".data
        , "Monitor for unusual requests".data ]
      commonProcesses := ["nginx".data, "apache2".data, "httpd".data, "lighttpd".data] }
  | 443 => some
    { service := "HTTPS".data
      description := "HTTP Secure - Encrypted web traffic".data
      protocol := "tcp".data
      risk := "low".data
      category := "web".data
      recommendations :=
        [ "Ensure that strong TLS versions are used".data
        , "Use valid SSL/TLS certificates".data
        , "Enable HTTP Strict Transport Security (HSTS)".data ]
      commonProcesses := ["nginx".data, "apache2".data, "httpd".data] }
  | 8080 => some
    { service := "HTTP-Alt".data
      description := "Alternative HTTP Port - often for Development or Proxies".data
      protocol := "tcp".data
      risk := "medium".data
      category := "web".data
      recommendations :=
        [ "Restrict access to necessary IPs".data
        , "Use authentication".data
        , "Monitor unauthorized access".data ]
      commonProcesses := ["tomcat".data, "jetty".data, "node".data, "python".data] }
  | 8000 => some
    { service := "HTTP-Dev".data
      description := "Development HTTP Server".data
      protocol := "tcp".data
      risk := "high".data
      category := "development".data
      recommendations :=
        [ "Use only for development".data
        , "Do not use in production environments".data
        , "Configure firewall rules for external access".data ]
      commonProcesses := ["python".data, "node".data, "ruby".data, "php".data] }
  | 22 => some
    { service := "SFTP".data
      description := "SSH File Transfer Protocol - Secure file transfer".data
      protocol := "tcp".data
      risk := "low".data
      category := "file".data
      recommendations :=
        [ "Use key-based authentication".data
        , "Restrict directory access (chroot)".data
        , "Monitor file transfers".data ]
      commonProcesses := ["sshd".data] }
  | 23 => some
    { service := "Telnet".data
      description := "Telnet - INSECURE plaintext Remote-access".data
      protocol := "tcp".data
      risk := "critical".data
      category := "remote".data
      recommendations :=
        [ "IMMEDIATELY DISABLE - Use SSH instead".data
        , "Change all passwords".data
        , "Check network for compromise".data ]
      commonProcesses := ["telnetd".data, "xinetd".data] }
  | 3389 => some
    { service := "RDP".data
      description := "Remote Desktop Protocol - Windows Remote Desktop".data
      protocol := "tcp".data
      risk := "high".data
      category := "remote".data
      recommendations :=
        [ "Use VPN for external access".data
        , "Enable Network Level Authentication".data
        , "Use strong passwords".data
        , "Monitor login attempts".data ]
      commonProcesses := ["TermService".data, "rdp".data] }
  | 3306 => some
    { service := "MySQL".data
      description := "MySQL/MariaDB Database".data
      protocol := "tcp".data
      risk := "high".data
      category := "database".data
      recommendations :=
        [ "Use strong passwords".data
        , "Restrict network access".data
        , "Enable SSL/TLS".data
        , "Regular Security Updates".data ]
      commonProcesses := ["mysqld".data, "mariadb".data] }
  | 5432 => some
    { service := "PostgreSQL".data
      description := "PostgreSQL Database".data
      protocol := "tcp".data
      risk := "high".data
      category := "database".data
      recommendations :=
        [ "Configure pg_hba.conf secure".data
        , "Use SSL connections".data
        , "Restrict network access".data
        , "Enable Logging".data ]
      commonProcesses := ["postgres".data, "postmaster".data] }
  | 27017 => some
    { service := "MongoDB".data
      description := "MongoDB NoSQL Database".data
      protocol := "tcp".data
      risk := "high".data
      category := "database".data
      recommendations :=
        [ "Enable authentication".data
        , "Use SSL/TLS".data
        , "Restrict network access".data
        , "Regular Backups".data ]
      commonProcesses := ["mongod".data] }
  | 6379 => some
    { service := "Redis".data
      description := "Redis In-Memory Database/Cache".data
      protocol := "tcp".data
      risk := "high".data
      category := "database".data
      recommendations :=
        [ "Enable authentication (requirepass)".data
        , "Bind only to localhost".data
        , "Use firewall rules".data
        , "Disable dangerous commands".data ]
      commonProcesses := ["redis-server".data] }
  | 53 => some
    { service := "DNS".data
      description := "Domain Name System".data
      protocol := "both".data
      risk := "medium".data
      category := "network".data
      recommendations :=
        [ "Restrict recursive queries".data
        , "Implement DNS filtering".data
        , "Monitor DNS tunneling".data
        , "Use DNS over HTTPS/TLS".data ]
      commonProcesses := ["named".data, "dnsmasq".data, "systemd-resolved".data, "unbound".data] }
  | 21 => some
    { service := "FTP".data
      description := "File Transfer Protocol - INSECURE".data
      protocol := "tcp".data
      risk := "high".data
      category := "file".data
      recommendations :=
        [ "Use SFTP or FTPS instead".data
        , "Restrict to internal networks".data
        , "Monitor file transfers".data
        , "Use strong authentication".data ]
      commonProcesses := ["vsftpd".data, "proftpd".data, "ftpd".data] }
  | 25 => some
    { service := "SMTP".data
      description := "Simple Mail Transfer Protocol".data
      protocol := "tcp".data
      risk := "medium".data
      category := "mail".data
      recommendations :=
        [ "Use STARTTLS".data
        , "Implement SPF/DKIM/DMARC".data
        , "Monitor for spam/relay abuse".data
        , "Enable authentication".data ]
      commonProcesses := ["postfix".data, "sendmail".data, "exim".data] }
  | 587 => some
    { service := "SMTP-Auth".data
      description := "SMTP with authentication (Submission)".data
      protocol := "tcp".data
      risk := "low".data
      category := "mail".data
      recommendations :=
        [ "Enforce STARTTLS".data
        , "Use strong authentication".data
        , "Implement rate limiting".data ]
      commonProcesses := ["postfix".data, "exim".data] }
  | 993 => some
    { service := "IMAPS".data
      description := "IMAP over SSL - Secure mail retrieval".data
      protocol := "tcp".data
      risk := "low".data
      category := "mail".data
      recommendations :=
        [ "Use strong TLS versions".data
        , "Implement two-factor authentication".data
        , "Monitor login attempts".data ]
      commonProcesses := ["dovecot".data, "courier-imap".data] }
  | 3000 => some
    { service := "Node.js Dev".data
      description := "Node.js Development Server".data
      protocol := "tcp".data
      risk := "medium".data
      category := "development".data
      recommendations :=
        [ "Use only for development".data
        , "Restrict network access".data
        , "Use environment variables for secrets".data ]
      commonProcesses := ["node".data, "npm".data, "yarn".data] }
  | 9090 => some
    { service := "Prometheus".data
      description := "Prometheus Monitoring".data
      protocol := "tcp".data
      risk := "medium".data
      category := "monitoring".data
      recommendations :=
        [ "Restrict access to monitoring network".data
        , "Use authentication".data
        , "Monitor sensitive metrics".data ]
      commonProcesses := ["prometheus".data] }
  | 3001 => some
    { service := "Grafana".data
      description := "Grafana Dashboard".data
      protocol := "tcp".data
      risk := "medium".data
      category := "monitoring".data
      recommendations :=
        [ "Use strong admin passwords".data
        , "Enable HTTPS".data
        , "Restrict dashboard access".data ]
      commonProcesses := ["grafana-server".data] }
  | 161 => some
    { service := "SNMP".data
      description := "Simple Network Management Protocol".data
      protocol := "udp".data
      risk := "high".data
      category := "network".data
      recommendations :=
        [ "Use SNMPv3 with encryption".data
        , "Change default community strings".data
        , "Restrict access via firewall".data
        , "Monitor SNMP queries".data ]
      commonProcesses := ["snmpd".data] }
  | 5353 => some
    { service := "mDNS".data
      description := "Multicast DNS (Bonjour/Avahi)".data
      protocol := "udp".data
      risk := "low".data
      category := "network".data
      recommendations :=
        [ "Disable if not needed".data
        , "Restrict to local networks".data
        , "Monitor mDNS-traffic".data ]
      commonProcesses := ["avahi-daemon".data, "mDNSResponder".data] }
  | 135 => some
    { service := "MS-RPC".data
      description := "Microsoft RPC Endpoint Mapper".data
      protocol := "tcp".data
      risk := "critical".data
      category := "windows".data
      recommendations :=
        [ "Block external access".data
        , "Keep Windows-Updates up to date".data
        , "Monitor RPC-traffic".data
        , "Use Windows Firewall".data ]
      commonProcesses := ["svchost.exe".data] }
  | 445 => some
    { service := "SMB".data
      description := "Server Message Block - Windows file sharing".data
      protocol := "tcp".data
      risk := "critical".data
      category := "file".data
      recommendations :=
        [ "Block external access IMMEDIATELY".data
        , "Disable SMBv1".data
        , "Use strong authentication".data
        , "Monitor file shares".data ]
      commonProcesses := ["smbd".data, "System".data] }
  | _ => none

def dangerousPorts : List Nat :=
  [23, 135, 139, 445, 1433, 1521, 2049, 3389, 5900, 5984, 6000, 8080, 8888, 9200]

def developmentPorts : List Nat := [3000, 3001, 4000, 5000, 8000, 8080, 8888, 9000]

def databasePorts : List Nat := [1433, 1521, 3306, 5432, 6379, 27017, 28017]

def lowerL (s : Str) : Str := s.map Char.toLower

def upperL (s : Str) : Str := s.map Char.toUpper

/-- `portInfo.commonProcesses.some(p => process && process.toLowerCase()
.includes(p.toLowerCase()))`; an empty process string is falsy. -/
def processMatches (cps : List Str) (process : Str) : Bool :=
  cps.any (fun p => !process.isEmpty && hasSub (lowerL process) (lowerL p))

structure PortInfo where
  service : Str
  description : Str
  protocol : Str
  risk : Str
  category : Str
  recommendations : List Str
  commonProcesses : List Str
  isKnown : Bool
  isDangerous : Bool
  isDevelopment : Bool
  isDatabase : Bool
  processMatch : Bool
  deriving Repr, DecidableEq

/-- portDatabase.getPortInfo.  The unknown-port branch applies its risk,
category and recommendation updates in the source's statement order. -/
def getPortInfo (port : Nat) (protocol : Str) (process : Str) : PortInfo :=
  match commonPorts port with
  | some info =>
    { service := info.service
      description := info.description
      protocol := info.protocol
      risk := info.risk
      category := info.category
      recommendations := info.recommendations
      commonProcesses := info.commonProcesses
      isKnown := true
      isDangerous := dangerousPorts.contains port
      isDevelopment := developmentPorts.contains port
      isDatabase := databasePorts.contains port
      processMatch := processMatches info.commonProcesses process }
  | none =>
    { service := "Unknown".data
      description := "Unknown service on port ".data ++ (Nat.repr port).data
      protocol := protocol
      risk :=
        if dangerousPorts.contains port then "critical".data
        else if 49152 ≤ port then "low".data
        else if port < 1024 then "medium".data
        else "low".data
      category := if 49152 ≤ port then "dynamic".data else "unknown".data
      recommendations :=
        ["Identify the service".data, "Check if the port is needed".data]
          ++ (if port < 1024 then ["System port - check privileged processes".data] else [])
          ++ (if 49152 ≤ port then ["Dynamic port - temporary connection".data] else [])
          ++ (if dangerousPorts.contains port then ["CRITICAL: Known dangerous port".data] else [])
      commonProcesses := []
      isKnown := false
      isDangerous := dangerousPorts.contains port
      isDevelopment := developmentPorts.contains port
      isDatabase := databasePorts.contains port
      processMatch := false }

structure AlertDetails where
  description : Str
  risk : Str
  isDangerous : Bool
  isDevelopment : Bool
  isDatabase : Bool
  processMatch : Bool
  deriving Repr, DecidableEq

/-- One alert object.  Different producers set different subsets of fields
in the source; fields a producer leaves undefined are none or empty here. -/
structure Alert where
  type : Str
  severity : Str
  message : Str
  port : Option Nat := none
  process : Option Str := none
  address : Option Str := none
  service : Option Str := none
  category : Option Str := none
  recommendations : List Str := []
  portInfo : Option PortInfo := none
  details : Option AlertDetails := none
  ports : List Nat := []
  timestamp : Option Nat := none
  deriving Repr, DecidableEq

/-- The decision chain of generateSecurityAlert: type, severity, message. -/
def classifyChain (portInfo : PortInfo) (port : Nat) (protocol : Str)
    (process : Str) (address : Str) : Str × Str × Str :=
  if portInfo.isDangerous then
    ("dangerous_port".data, "critical".data,
      "CRITICAL: Dangerous service ".data ++ portInfo.service
        ++ " detected on port ".data ++ (Nat.repr port).data)
  else if !portInfo.isKnown then
    ("unknown_port".data, "medium".data,
      "Unknown service on port ".data ++ (Nat.repr port).data
        ++ " (".data ++ upperL protocol ++ ")".data)
  else if portInfo.risk = ("high".data) then
    ("high_risk_service".data, "high".data,
      "High-risk service ".data ++ portInfo.service
        ++ " on port ".data ++ (Nat.repr port).data)
  else if portInfo.isDevelopment
      && !(address = ("127.0.0.1".data)) && !(address = ("localhost".data)) then
    ("dev_service_exposed".data, "high".data,
      "Development service ".data ++ portInfo.service
        ++ " exposed to external connections".data)
  else if !portInfo.processMatch && !process.isEmpty then
    ("process_mismatch".data, "medium".data,
      "Unexpected process \"".data ++ process ++ "\" on ".data
        ++ portInfo.service ++ " port ".data ++ (Nat.repr port).data)
  else
    ("info".data, "low".data,
      portInfo.service ++ " service active on port ".data ++ (Nat.repr port).data)

/-- portDatabase.generateSecurityAlert with the clock explicit. -/
def generateSecurityAlert (now : Nat) (port : Nat) (protocol : Str)
    (process : Str) (address : Str) : Alert :=
  let portInfo := getPortInfo port protocol process
  let tsm := classifyChain portInfo port protocol process address
  { type := tsm.1
    severity := tsm.2.1
    message := tsm.2.2
    port := some port
    process := some (if process.isEmpty then "unknown".data else process)
    address := some address
    service := some portInfo.service
    category := some portInfo.category
    recommendations := portInfo.recommendations
    portInfo := some portInfo
    timestamp := some now }

/-! ## SecurityAnalyzer: whitelist, per-record analysis, port-scan detector -/

structure Whitelist where
  ports : List Nat
  processes : List Str
  deriving Repr, DecidableEq

/-- SecurityAnalyzer.addToWhitelist on the loaded whitelist document. -/
def addToWhitelist (wl : Whitelist) (port : Nat) (process : Option Str) : Whitelist :=
  { ports := if wl.ports.contains port then wl.ports else wl.ports ++ [port]
    processes :=
      match process with
      | some pr => if wl.processes.contains pr then wl.processes else wl.processes ++ [pr]
      | none => wl.processes }

/-- SecurityAnalyzer.removeFromWhitelist: filter the port out of the ports
list; the processes list is not touched. -/
def removeFromWhitelist (wl : Whitelist) (port : Nat) : Whitelist :=
  { ports := wl.ports.filter (fun p => p ≠ port)
    processes := wl.processes }

/-- The skip condition of analyzePorts: `whitelist.ports.includes(port.port)
|| whitelist.processes.includes(port.process)`. -/
def isWhitelisted (wl : Whitelist) (p : PortRecord) : Bool :=
  wl.ports.contains p.port || wl.processes.contains p.process

/-- The key of the detector's history map is the template string
`port_protocol`; since a decimal numeral contains no underscore the string
is in bijection with the pair, which we use directly. -/
abbrev ScanKey := Nat × Str

abbrev History := List (ScanKey × Nat)

def histGet (h : History) (k : ScanKey) : Option Nat :=
  match h.find? (fun e => e.1 = k) with
  | some e => some e.2
  | none => none

/-- Map.set: update in place when the key is present, else append. -/
def histSet (h : History) (k : ScanKey) (t : Nat) : History :=
  if (h.find? (fun e => e.1 = k)).isSome then
    h.map (fun e => if e.1 = k then (k, t) else e)
  else h ++ [(k, t)]

/-- `!lastSeen || currentTime - lastSeen > 60000`: an absent key is stale,
and a stored 0 is falsy in the source's check, hence also stale. -/
def staleB (now : Nat) : Option Nat → Bool
  | none => true
  | some t => t = 0 || decide (60000 < now - t)

/-- SecurityAnalyzer.detectPortScanning: one forEach step over a record. -/
def scanStep (now : Nat) (acc : List Nat × History) (p : PortRecord) :
    List Nat × History :=
  let k : ScanKey := (p.port, p.protocol)
  ( if staleB now (histGet acc.2 k) then acc.1 ++ [p.port] else acc.1
  , histSet acc.2 k now )

/-- The port-scan alert object built when the threshold (10) is reached. -/
def portScanAlert (recentPorts : List Nat) : Alert :=
  { type := "port_scan".data
    severity := "critical".data
    message :=
      "Possible port scanning detected: ".data
        ++ (Nat.repr recentPorts.length).data ++ " new ports opened".data
    ports := recentPorts }

/-- SecurityAnalyzer.detectPortScanning: build the recent-port list while
refreshing timestamps, sweep entries older than 300s out of the history,
then emit one critical port_scan alert when at least 10 ports are recent. -/
def detectPortScanning (now : Nat) (h : History) (ports : List PortRecord) :
    Option Alert × History :=
  let built := ports.foldl (scanStep now) ([], h)
  let swept := built.2.filter (fun e => !decide (300000 < now - e.2))
  if 10 ≤ built.1.length then (some (portScanAlert built.1), swept)
  else (none, swept)

/-- The suspicious-process pattern table of the SecurityAnalyzer
constructor; each regex is an alternation of case-insensitive literals. -/
def suspiciousHit (process : Str) (lits : List Str) : Bool :=
  !process.isEmpty && lits.any (fun l => hasSub (lowerL process) l)

def suspiciousAlerts (p : PortRecord) : List Alert :=
  (if suspiciousHit p.process ["nc".data, "netcat".data] then
    [{ type := "suspicious_process".data
       severity := "high".data
       message := "Potential backdoor".data ++ ": ".data ++ p.process
         ++ " on port ".data ++ (Nat.repr p.port).data
       port := some p.port
       process := some p.process
       recommendations := ["Investigate the process further".data,
         "Check for malware".data, "Monitor network traffic".data] }]
   else []) ++
  (if suspiciousHit p.process ["miner".data, "xmrig".data] then
    [{ type := "suspicious_process".data
       severity := "critical".data
       message := "Crypto miner detected".data ++ ": ".data ++ p.process
         ++ " on port ".data ++ (Nat.repr p.port).data
       port := some p.port
       process := some p.process
       recommendations := ["Investigate the process further".data,
         "Check for malware".data, "Monitor network traffic".data] }]
   else []) ++
  (if suspiciousHit p.process ["telnet".data] then
    [{ type := "suspicious_process".data
       severity := "medium".data
       message := "Insecure protocol".data ++ ": ".data ++ p.process
         ++ " on port ".data ++ (Nat.repr p.port).data
       port := some p.port
       process := some p.process
       recommendations := ["Investigate the process further".data,
         "Check for malware".data, "Monitor network traffic".data] }]
   else []) ++
  (if suspiciousHit p.process ["torrent".data] then
    [{ type := "suspicious_process".data
       severity := "low".data
       message := "P2P activity".data ++ ": ".data ++ p.process
         ++ " on port ".data ++ (Nat.repr p.port).data
       port := some p.port
       process := some p.process
       recommendations := ["Investigate the process further".data,
         "Check for malware".data, "Monitor network traffic".data] }]
   else [])

/-- `port.port < 1024 && port.process !== 'root' && port.pid`. -/
def privilegeAlerts (p : PortRecord) : List Alert :=
  if p.port < 1024 && !(p.process = ("root".data))
      && (match p.pid with | some n => !(n = 0) | none => false) then
    [{ type := "privilege_violation".data
       severity := "high".data
       message := "Non-root process ".data ++ p.process
         ++ " using privileged port ".data ++ (Nat.repr p.port).data
       port := some p.port
       process := some p.process
       recommendations := ["Check process permissions".data,
         "Check for privilege escalation".data, "Analyze system security".data] }]
  else []

/-- The detailed alert analyzePorts builds from generateSecurityAlert. -/
def detailedAlert (now : Nat) (p : PortRecord) : Alert :=
  let sa := generateSecurityAlert now p.port
    (if p.protocol.isEmpty then "tcp".data else p.protocol)
    p.process
    (if p.address.isEmpty then "unknown".data else p.address)
  { type := sa.type
    severity := sa.severity
    message := sa.message
    port := some p.port
    process := some (if p.process.isEmpty then "unknown".data else p.process)
    address := some (if p.address.isEmpty then "unknown".data else p.address)
    service := sa.service
    category := sa.category
    recommendations := sa.recommendations
    portInfo := sa.portInfo
    timestamp := sa.timestamp
    details := sa.portInfo.map (fun pi =>
      { description := pi.description
        risk := pi.risk
        isDangerous := pi.isDangerous
        isDevelopment := pi.isDevelopment
        isDatabase := pi.isDatabase
        processMatch := pi.processMatch }) }

/-- The portAlerts list one non-whitelisted record contributes. -/
def recordAlerts (now : Nat) (p : PortRecord) : List Alert :=
  detailedAlert now p :: (suspiciousAlerts p ++ privilegeAlerts p)

/-- SecurityAnalyzer.analyzePorts: skip whitelisted records, collect each
remaining record's alerts, then append the port-scan alert if any.  The
whitelist and the clock are explicit; the detector history is threaded. -/
def analyzePorts (wl : Whitelist) (now : Nat) (h : History)
    (ports : List PortRecord) : List Alert × History :=
  let perRecord := ports.foldl
    (fun acc p => if isWhitelisted wl p then acc else acc ++ recordAlerts now p) []
  match detectPortScanning now h ports with
  | (some a, h2) => (perRecord ++ [a], h2)
  | (none, h2) => (perRecord, h2)

/-! ## Database: retention cleanup -/

structure SnapshotRow where
  timestamp : Nat
  port : Nat
  protocol : Str
  process : Str
  pid : Option Nat
  container : Option Str
  containerId : Option Str
  deriving Repr, DecidableEq

structure TrafficRow where
  timestamp : Nat
  port : Nat
  bytesIn : Nat
  bytesOut : Nat
  connections : Nat
  packetsIn : Nat
  packetsOut : Nat
  deriving Repr, DecidableEq

structure AlertRow where
  timestamp : Nat
  type : Str
  severity : Str
  message : Str
  port : Option Nat
  process : Option Str
  resolved : Bool
  deriving Repr, DecidableEq

structure ConnectionRow where
  timestamp : Nat
  localIp : Str
  localPort : Nat
  remoteIp : Str
  remotePort : Nat
  state : Str
  duration : Option Nat
  deriving Repr, DecidableEq

structure DBState where
  portSnapshots : List SnapshotRow
  trafficStats : List TrafficRow
  securityAlerts : List AlertRow
  connections : List ConnectionRow
  deriving Repr, DecidableEq

/-- The horizon `datetime('now', '-N days')`, with timestamps in seconds. -/
def cutoff (now daysToKeep : Nat) : Nat := now - daysToKeep * 86400

/-- Database.cleanup: each DELETE keeps exactly the rows its WHERE clause
does not select.  The security_alerts DELETE additionally requires
`resolved = 1`, so unresolved alerts are kept whatever their age. -/
def cleanup (now daysToKeep : Nat) (db : DBState) : DBState :=
  { portSnapshots :=
      db.portSnapshots.filter (fun r => !decide (r.timestamp < cutoff now daysToKeep))
    trafficStats :=
      db.trafficStats.filter (fun r => !decide (r.timestamp < cutoff now daysToKeep))
    securityAlerts :=
      db.securityAlerts.filter
        (fun r => !(r.resolved && decide (r.timestamp < cutoff now daysToKeep)))
    connections :=
      db.connections.filter (fun r => !decide (r.timestamp < cutoff now daysToKeep)) }

/-! ## Specification-side notions used by the theorem statements -/

/-- The record list with wall-clock stamps erased, used to compare two
parses taken at different times field-by-field. -/
def stripTs (r : PortRecord) : PortRecord := { r with timestamp := 0 }

/-- The distinct keys of a list in first-occurrence order. -/
def distinctFirsts : List ScanKey → List ScanKey
  | [] => []
  | k :: ks => k :: distinctFirsts (ks.filter (fun x => x ≠ k))
termination_by l => l.length
decreasing_by
  simp only [List.length_cons]
  exact Nat.lt_succ_of_le (List.length_filter_le _ _)

/-- The claim's recency predicate on the pre-call history: the key is
absent, or its last-seen timestamp is more than 60 seconds old. -/
def staleClaim (now : Nat) (h : History) (k : ScanKey) : Bool :=
  match histGet h k with
  | none => true
  | some t => decide (60000 < now - t)

/-- The distinct observed keys that the pre-call history knows as absent or
more than 60s old; the claim counts these. -/
def newKeys (now : Nat) (h : History) (ports : List PortRecord) : List ScanKey :=
  (distinctFirsts (ports.map (fun p => (p.port, p.protocol)))).filter (staleClaim now h)

/-- Recursive form of the recent-port accumulation of detectPortScanning,
used to relate the fold to the claim's key count. -/
def staleFresh (now : Nat) : History → List PortRecord → List Nat
  | _, [] => []
  | h, p :: rest =>
    if staleB now (histGet h (p.port, p.protocol)) then
      p.port :: staleFresh now (histSet h (p.port, p.protocol) now) rest
    else staleFresh now (histSet h (p.port, p.protocol) now) rest

/-- The decimal digit runs that immediately follow a colon in a line; every
port number the parser extracts is the value of one of these runs.  A text
is valid acquisition-command output when all of them fit in a port. -/
def colonRuns : Str → List Nat
  | [] => []
  | c :: rest =>
    if c = ':' && !(takeDigits rest).isEmpty then
      digitsToNat (takeDigits rest) :: colonRuns rest
    else colonRuns rest

def validPortText (out : Str) : Prop :=
  ∀ line ∈ splitLines out, ∀ v ∈ colonRuns line, v ≤ 65535

/-! ## Concrete inputs for witnesses and counterexamples -/

/-- A primary-grammar (ss) line as in the spec's parsing scenario. -/
def ssSample : Str :=
  "tcp LISTEN 0 128 0.0.0.0:22 0.0.0.0:* users:((\"sshd\",pid=1234,fd=3))".data

def mkObserved (port : Nat) : PortRecord :=
  { port := port
    protocol := tcpS
    process := "proc".data
    pid := none
    address := "0.0.0.0".data
    timestamp := 0 }

/-- Ten records on distinct previously-unseen ports. -/
def tenPorts : List PortRecord :=
  [mkObserved 1, mkObserved 2, mkObserved 3, mkObserved 4, mkObserved 5,
   mkObserved 6, mkObserved 7, mkObserved 8, mkObserved 9, mkObserved 10]

def histSample : History := [((80, tcpS), 99000)]

def recSample : PortRecord :=
  { port := 22
    protocol := tcpS
    process := "sshd".data
    pid := some 1234
    address := "0.0.0.0".data
    timestamp := 0 }

def wlSample : Whitelist := { ports := [22, 80], processes := ["nginx".data] }

def nginxRec : PortRecord :=
  { port := 8443
    protocol := tcpS
    process := "nginx".data
    pid := some 7
    address := "0.0.0.0".data
    timestamp := 0 }

/-- An unresolved security alert far older than every plausible horizon. -/
def oldUnresolvedAlert : AlertRow :=
  { timestamp := 0
    type := "dangerous_port".data
    severity := "critical".data
    message := "old".data
    port := some 23
    process := some ("telnetd".data)
    resolved := false }

def dbSample : DBState :=
  { portSnapshots := []
    trafficStats := []
    securityAlerts := [oldUnresolvedAlert]
    connections := [] }

/-- One hundred days past the epoch, in seconds. -/
def tSample : Nat := 100 * 86400

/-! ## Helper lemmas -/

theorem getPortInfo_isDangerous (port : Nat) (protocol process : Str) :
    (getPortInfo port protocol process).isDangerous = dangerousPorts.contains port := by
  unfold getPortInfo
  cases commonPorts port <;> rfl

theorem detectPortScanning_snd (now : Nat) (h : History) (ports : List PortRecord) :
    (detectPortScanning now h ports).2 =
      (ports.foldl (scanStep now) ([], h)).2.filter
        (fun e => !decide (300000 < now - e.2)) := by
  unfold detectPortScanning
  dsimp only
  split <;> rfl

/-! ## Claim theorems -/

/-- C8: when both the primary and the secondary socket-introspection
commands fail (both inputs none), getActivePorts returns the previously
cached port list unchanged — the empty list on cold start — and, being a
total function whose source wraps every failure path in a handler that
falls back to the cache, it never propagates an error to its caller. -/
theorem getActivePorts_total_failure (st : MonitorState) (now : Nat) :
    getActivePorts st now none none = (st.cachedPorts, st) := by
  unfold getActivePorts
  split <;> rfl

/-- C5: a record on port 3000 with process node classifies as severity low
and type info when bound to 127.0.0.1, and as severity high and type
dev_service_exposed when bound to 0.0.0.0, at every call time. -/
theorem port3000_node_classification (now : Nat) :
    ((generateSecurityAlert now 3000 tcpS ("node".data) ("127.0.0.1".data)).severity
        = "low".data
      ∧ (generateSecurityAlert now 3000 tcpS ("node".data) ("127.0.0.1".data)).type
        = "info".data)
    ∧ ((generateSecurityAlert now 3000 tcpS ("node".data) ("0.0.0.0".data)).severity
        = "high".data
      ∧ (generateSecurityAlert now 3000 tcpS ("node".data) ("0.0.0.0".data)).type
        = "dev_service_exposed".data) :=
  ⟨⟨rfl, rfl⟩, ⟨rfl, rfl⟩⟩

/-- C6: every port in the static dangerous-port list — in particular 23 —
classifies as severity critical and type dangerous_port regardless of
protocol, process, bind address and call time, because the dangerous-port
check is the first rule of the decision chain. -/
theorem dangerous_port_classification (port : Nat) (hmem : port ∈ dangerousPorts)
    (protocol process address : Str) (now : Nat) :
    (generateSecurityAlert now port protocol process address).severity = "critical".data
    ∧ (generateSecurityAlert now port protocol process address).type = "dangerous_port".data := by
  have hd : (getPortInfo port protocol process).isDangerous = true := by
    rw [getPortInfo_isDangerous]
    exact List.elem_iff.mpr hmem
  simp [generateSecurityAlert, classifyChain, hd]

/-- C6 witness: port 23 (telnet) is dangerous and classifies as a critical
dangerous_port alert. -/
theorem dangerous_port_classification_witness :
    (23 ∈ dangerousPorts)
    ∧ (generateSecurityAlert 0 23 tcpS ("telnetd".data) ("0.0.0.0".data)).severity
        = "critical".data
    ∧ (generateSecurityAlert 0 23 tcpS ("telnetd".data) ("0.0.0.0".data)).type
        = "dangerous_port".data :=
  ⟨by decide,
    dangerous_port_classification 23 (by decide) tcpS ("telnetd".data) ("0.0.0.0".data) 0⟩

/-- C9: every key still in the detector's history map after a call to
detectPortScanning has a last-seen timestamp at most 300 seconds before the
call time; the sweep evicts everything older, keeping the map inside the
5-minute window. -/
theorem history_bounded_after_detect (now : Nat) (h : History)
    (ports : List PortRecord) :
    ∀ e ∈ (detectPortScanning now h ports).2, now - e.2 ≤ 300000 := by
  intro e he
  rw [detectPortScanning_snd] at he
  have hp := (List.mem_filter.mp he).2
  simp only [Bool.not_eq_true', decide_eq_false_iff_not, Nat.not_lt] at hp
  exact hp

/-- C9 witness: a record observed at time 5 leaves one history entry, whose
timestamp is inside the 300-second window. -/
theorem history_bounded_after_detect_witness :
    ((22, tcpS), 5) ∈ (detectPortScanning 5 [] [recSample]).2
    ∧ 5 - (((22, tcpS), 5) : ScanKey × Nat).2 ≤ 300000 :=
  ⟨by decide, history_bounded_after_detect 5 [] [recSample] ((22, tcpS), 5) (by decide)⟩

/-- C3 counterexample: cleanup at a 30-day horizon, with now 100 days past
the epoch, keeps an unresolved security alert stamped at the epoch even
though it is strictly older than the horizon — the security_alerts DELETE
also requires resolved = 1, so the claim that every strictly-older row in
all four tables is deleted is false on this input. -/
theorem cleanup_keeps_old_unresolved_alert :
    oldUnresolvedAlert.timestamp < cutoff tSample 30
    ∧ oldUnresolvedAlert ∈ (cleanup tSample 30 dbSample).securityAlerts := by
  constructor
  · decide
  · decide

/-- C3 amended: cleanup deletes from port_snapshots, traffic_stats and
connections exactly the rows strictly older than the horizon, and from
security_alerts exactly the resolved rows strictly older than the horizon;
unresolved alerts are kept whatever their age, and no row newer than the
horizon is ever deleted. -/
theorem cleanup_retention (now daysToKeep : Nat) (db : DBState) :
    (∀ r, r ∈ (cleanup now daysToKeep db).portSnapshots ↔
      r ∈ db.portSnapshots ∧ ¬ r.timestamp < cutoff now daysToKeep)
    ∧ (∀ r, r ∈ (cleanup now daysToKeep db).trafficStats ↔
      r ∈ db.trafficStats ∧ ¬ r.timestamp < cutoff now daysToKeep)
    ∧ (∀ r, r ∈ (cleanup now daysToKeep db).connections ↔
      r ∈ db.connections ∧ ¬ r.timestamp < cutoff now daysToKeep)
    ∧ (∀ r, r ∈ (cleanup now daysToKeep db).securityAlerts ↔
      r ∈ db.securityAlerts
        ∧ ¬(r.resolved = true ∧ r.timestamp < cutoff now daysToKeep)) := by
  refine ⟨fun r => ?_, fun r => ?_, fun r => ?_, fun r => ?_⟩ <;>
    simp [cleanup, List.mem_filter]
  intro _
  cases hb : r.resolved <;> simp [hb]

/-- C10: removeFromWhitelist deletes the given port from the whitelist's
ports list, leaves every other port and the whole processes list unchanged,
and therefore a record whose process name is whitelisted is still skipped
by the analyzer's whitelist check afterwards. -/
theorem removeFromWhitelist_frame (wl : Whitelist) (port : Nat) (r : PortRecord)
    (hproc : r.process ∈ wl.processes) :
    port ∉ (removeFromWhitelist wl port).ports
    ∧ (∀ q, q ≠ port →
        (q ∈ (removeFromWhitelist wl port).ports ↔ q ∈ wl.ports))
    ∧ (removeFromWhitelist wl port).processes = wl.processes
    ∧ isWhitelisted (removeFromWhitelist wl port) r = true := by
  refine ⟨?_, ?_, rfl, ?_⟩
  · intro hmem
    have := (List.mem_filter.mp hmem).2
    simp at this
  · intro q hq
    constructor
    · intro hm
      exact (List.mem_filter.mp hm).1
    · intro hm
      exact List.mem_filter.mpr ⟨hm, by simpa using hq⟩
  · unfold isWhitelisted
    simp [removeFromWhitelist]
    exact Or.inr hproc

/-- C10 witness: removing port 8443 from a whitelist that lists process
nginx leaves an nginx record whitelisted. -/
theorem removeFromWhitelist_frame_witness :
    (nginxRec.process ∈ wlSample.processes)
    ∧ 8443 ∉ (removeFromWhitelist wlSample 8443).ports
    ∧ (removeFromWhitelist wlSample 8443).processes = wlSample.processes
    ∧ isWhitelisted (removeFromWhitelist wlSample 8443) nginxRec = true := by
  have h := removeFromWhitelist_frame wlSample 8443 nginxRec (by decide)
  exact ⟨by decide, h.1, h.2.2.1, h.2.2.2⟩

theorem foldl_whitelist_skip (wl : Whitelist) (now : Nat) :
    ∀ (ports : List PortRecord) (acc : List Alert),
      ports.foldl
        (fun acc p => if isWhitelisted wl p then acc else acc ++ recordAlerts now p) acc
      = acc ++ (ports.filter (fun p => !isWhitelisted wl p)).flatMap (recordAlerts now) := by
  intro ports
  induction ports with
  | nil => intro acc; simp
  | cons p rest ih =>
    intro acc
    rw [List.foldl_cons]
    by_cases hw : isWhitelisted wl p = true
    · simp only [hw, if_true, List.filter_cons, Bool.not_true]
      rw [ih]
      simp
    · have hw' : isWhitelisted wl p = false := by
        cases h : isWhitelisted wl p
        · rfl
        · exact absurd h hw
      simp only [hw', if_false, List.filter_cons, Bool.not_false]
      rw [ih]
      simp

/-- C2: the alert list analyzePorts returns is exactly the concatenation of
the per-record alerts of the records that are NOT whitelisted (by port or
by process name), followed by the optional port-scan alert; a record whose
port is in the whitelist's ports list or whose process name is in its
processes list therefore contributes no knowledge-table, suspicious-process
or privilege-violation alert in that call. -/
theorem analyzePorts_skips_whitelisted (wl : Whitelist) (now : Nat)
    (h : History) (ports : List PortRecord) :
    (analyzePorts wl now h ports).1 =
      (ports.filter (fun p => !isWhitelisted wl p)).flatMap (recordAlerts now)
        ++ ((detectPortScanning now h ports).1.toList) := by
  unfold analyzePorts
  rw [foldl_whitelist_skip]
  rcases hd : detectPortScanning now h ports with ⟨oa, h2⟩
  cases oa <;> simp

theorem stripTs_port (r : PortRecord) : (stripTs r).port = r.port := rfl

theorem insertByPort_map_stripTs (r : PortRecord) (l : List PortRecord) :
    (insertByPort r l).map stripTs = insertByPort (stripTs r) (l.map stripTs) := by
  induction l with
  | nil => rfl
  | cons x xs ih =>
    simp only [List.map_cons, insertByPort]
    by_cases hle : r.port ≤ x.port
    · rw [if_pos hle, if_pos (show (stripTs r).port ≤ (stripTs x).port from hle)]
      simp
    · rw [if_neg hle, if_neg (show ¬ (stripTs r).port ≤ (stripTs x).port from hle)]
      simp only [List.map_cons]
      rw [ih]

theorem sortByPort_map_stripTs (l : List PortRecord) :
    (sortByPort l).map stripTs = sortByPort (l.map stripTs) := by
  induction l with
  | nil => rfl
  | cons x xs ih =>
    unfold sortByPort
    simp only [List.map_cons]
    rw [insertByPort_map_stripTs, ih]

theorem parseLoop_map_stripTs (t1 t2 : Nat) :
    ∀ (lines : List Str) (seen : List Str) (acc1 acc2 : List PortRecord),
      acc1.map stripTs = acc2.map stripTs →
      (parseLoop t1 lines seen acc1).map stripTs
        = (parseLoop t2 lines seen acc2).map stripTs := by
  intro lines
  induction lines with
  | nil => intro seen acc1 acc2 hacc; exact hacc
  | cons line rest ih =>
    intro seen acc1 acc2 hacc
    unfold parseLoop
    by_cases h1 : (hasSub line ("Proto".data) || hasSub line ("Active".data)) = true
    · rw [if_pos h1, if_pos h1]
      exact ih seen acc1 acc2 hacc
    · rw [if_neg h1, if_neg h1]
      cases hpr : protoOfLine line with
      | none => exact ih seen acc1 acc2 hacc
      | some protocol =>
        dsimp only
        cases hport : extractPort line with
        | none => exact ih seen acc1 acc2 hacc
        | some port =>
          dsimp only
          by_cases hz : port = 0
          · rw [if_pos hz, if_pos hz]
            exact ih seen acc1 acc2 hacc
          · rw [if_neg hz, if_neg hz]
            by_cases hseen : seen.contains (portKeyStr protocol port) = true
            · rw [if_pos hseen, if_pos hseen]
              exact ih seen acc1 acc2 hacc
            · rw [if_neg hseen, if_neg hseen]
              apply ih
              simp only [List.map_append, hacc]
              rfl

/-- C4 counterexample: two calls to parsePortOutput on the same ss-format
line, one second apart, return record lists that differ (in the timestamp
field), so re-parsing identical text does not yield records equal in every
field. -/
theorem parse_differs_across_calls :
    parsePortOutput 0 ssSample ≠ parsePortOutput 1 ssSample := by decide

/-- C4 amended: parsing is deterministic and idempotent up to the wall
clock: two calls to parsePortOutput on identical text agree on every record
and every field except the timestamp field, which records the call time;
two calls with the same clock reading return fully identical lists. -/
theorem parse_deterministic_modulo_clock (t1 t2 : Nat) (out : Str) :
    (parsePortOutput t1 out).map stripTs = (parsePortOutput t2 out).map stripTs := by
  unfold parsePortOutput
  rw [sortByPort_map_stripTs, sortByPort_map_stripTs]
  rw [parseLoop_map_stripTs t1 t2 (keptLines out) [] [] [] rfl]

theorem histGet_cons (e : ScanKey × Nat) (h : History) (k : ScanKey) :
    histGet (e :: h) k = if e.1 = k then some e.2 else histGet h k := by
  unfold histGet
  rw [List.find?_cons]
  by_cases he : e.1 = k
  · simp [he]
  · simp [he]

theorem histGet_append_single_self (h : History) (k : ScanKey) (t : Nat) :
    h.find? (fun e => e.1 = k) = none → histGet (h ++ [(k, t)]) k = some t := by
  induction h with
  | nil => intro _; simp [histGet_cons]
  | cons e rest ih =>
    intro hf
    rw [List.find?_cons] at hf
    rcases hpe : (decide (e.1 = k)) with _ | _
    · rw [hpe] at hf
      rw [List.cons_append, histGet_cons, if_neg (by simpa using hpe)]
      exact ih hf
    · rw [hpe] at hf
      exact absurd hf (by simp)

theorem histGet_map_update_self (h : History) (k : ScanKey) (t : Nat) :
    (h.find? (fun e => e.1 = k)).isSome = true →
    histGet (h.map (fun e => if e.1 = k then (k, t) else e)) k = some t := by
  induction h with
  | nil => intro hf; simp at hf
  | cons e rest ih =>
    intro hf
    rw [List.find?_cons] at hf
    by_cases he : e.1 = k
    · simp only [List.map_cons, if_pos he]
      rw [histGet_cons, if_pos rfl]
    · simp only [List.map_cons, if_neg he]
      rw [histGet_cons, if_neg he]
      apply ih
      simpa [he] using hf

theorem histGet_append_single_ne (h : History) (k k' : ScanKey) (t : Nat)
    (hne : k' ≠ k) : histGet (h ++ [(k, t)]) k' = histGet h k' := by
  induction h with
  | nil =>
    rw [List.nil_append, histGet_cons,
      if_neg (show ((k, t) : ScanKey × Nat).1 ≠ k' from Ne.symm hne)]
  | cons e rest ih =>
    rw [List.cons_append, histGet_cons, histGet_cons, ih]

theorem histGet_map_update_ne (h : History) (k k' : ScanKey) (t : Nat)
    (hne : k' ≠ k) :
    histGet (h.map (fun e => if e.1 = k then (k, t) else e)) k' = histGet h k' := by
  induction h with
  | nil => rfl
  | cons e rest ih =>
    by_cases he : e.1 = k
    · simp only [List.map_cons, if_pos he]
      rw [histGet_cons, histGet_cons, ih]
      have h1 : ¬ ((k, t) : ScanKey × Nat).1 = k' := Ne.symm hne
      have h2 : ¬ e.1 = k' := by
        rw [he]
        exact Ne.symm hne
      rw [if_neg h1, if_neg h2]
    · simp only [List.map_cons, if_neg he]
      rw [histGet_cons, histGet_cons, ih]

theorem histGet_histSet_self (h : History) (k : ScanKey) (t : Nat) :
    histGet (histSet h k t) k = some t := by
  unfold histSet
  by_cases hp : (h.find? (fun e => e.1 = k)).isSome = true
  · rw [if_pos hp]
    exact histGet_map_update_self h k t hp
  · rw [if_neg hp]
    exact histGet_append_single_self h k t (Option.not_isSome_iff_eq_none.mp hp)

theorem histGet_histSet_ne (h : History) (k k' : ScanKey) (t : Nat)
    (hne : k' ≠ k) : histGet (histSet h k t) k' = histGet h k' := by
  unfold histSet
  by_cases hp : (h.find? (fun e => e.1 = k)).isSome = true
  · rw [if_pos hp]
    exact histGet_map_update_ne h k k' t hne
  · rw [if_neg hp]
    exact histGet_append_single_ne h k k' t hne

theorem staleFresh_ext (now : Nat) :
    ∀ (l : List PortRecord) (h1 h2 : History),
      (∀ k, histGet h1 k = histGet h2 k) →
      staleFresh now h1 l = staleFresh now h2 l := by
  intro l
  induction l with
  | nil => intro h1 h2 _; rfl
  | cons p rest ih =>
    intro h1 h2 hext
    unfold staleFresh
    rw [hext (p.port, p.protocol)]
    have hext2 : ∀ k, histGet (histSet h1 (p.port, p.protocol) now) k
        = histGet (histSet h2 (p.port, p.protocol) now) k := by
      intro k
      by_cases hk : k = (p.port, p.protocol)
      · subst hk
        rw [histGet_histSet_self, histGet_histSet_self]
      · rw [histGet_histSet_ne _ _ _ _ hk, histGet_histSet_ne _ _ _ _ hk, hext k]
    rw [ih _ _ hext2]

theorem staleB_refreshed (now : Nat) (hnow : 0 < now) :
    staleB now (some now) = false := by
  unfold staleB
  have h0 : ¬ now = 0 := Nat.pos_iff_ne_zero.mp hnow
  simp [h0, Nat.sub_self]

theorem staleFresh_histSet (now : Nat) (hnow : 0 < now) :
    ∀ (l : List PortRecord) (h : History) (k : ScanKey),
      staleFresh now (histSet h k now) l
        = staleFresh now h (l.filter (fun p => (p.port, p.protocol) ≠ k)) := by
  intro l
  induction l with
  | nil => intro h k; rfl
  | cons p rest ih =>
    intro h k
    by_cases hk : (p.port, p.protocol) = k
    · rw [List.filter_cons, if_neg (by simp [hk])]
      have hcond : ¬ staleB now (histGet (histSet h k now) (p.port, p.protocol)) = true := by
        rw [hk, histGet_histSet_self, staleB_refreshed now hnow]
        simp
      simp only [staleFresh]
      rw [if_neg hcond, hk]
      have hext : ∀ k', histGet (histSet (histSet h k now) k now) k'
          = histGet (histSet h k now) k' := by
        intro k'
        by_cases hk' : k' = k
        · subst hk'
          rw [histGet_histSet_self, histGet_histSet_self]
        · rw [histGet_histSet_ne _ _ _ _ hk', histGet_histSet_ne _ _ _ _ hk']
      rw [staleFresh_ext now rest _ _ hext, ih h k]
    · rw [List.filter_cons, if_pos (by simp [hk])]
      unfold staleFresh
      rw [histGet_histSet_ne h k _ now hk]
      have hswap : ∀ k', histGet (histSet (histSet h k now) (p.port, p.protocol) now) k'
          = histGet (histSet (histSet h (p.port, p.protocol) now) k now) k' := by
        intro k'
        by_cases h1 : k' = (p.port, p.protocol)
        · subst h1
          rw [histGet_histSet_self, histGet_histSet_ne _ _ _ _ hk, histGet_histSet_self]
        · by_cases h2 : k' = k
          · subst h2
            rw [histGet_histSet_ne _ _ _ _ h1, histGet_histSet_self, histGet_histSet_self]
          · rw [histGet_histSet_ne _ _ _ _ h1, histGet_histSet_ne _ _ _ _ h2,
              histGet_histSet_ne _ _ _ _ h2, histGet_histSet_ne _ _ _ _ h1]
      rw [staleFresh_ext now rest _ _ hswap, ih (histSet h (p.port, p.protocol) now) k]

theorem map_key_filter_ne (k : ScanKey) (l : List PortRecord) :
    (l.filter (fun p => (p.port, p.protocol) ≠ k)).map (fun p => (p.port, p.protocol))
      = (l.map (fun p => (p.port, p.protocol))).filter (fun x => x ≠ k) := by
  induction l with
  | nil => rfl
  | cons p rest ih =>
    rw [List.filter_cons, List.map_cons, List.filter_cons]
    by_cases hp : (p.port, p.protocol) = k
    · rw [if_neg (by simp [hp]), if_neg (by simp [hp]), ih]
    · rw [if_pos (by simp [hp]), if_pos (by simp [hp]), List.map_cons, ih]

theorem staleFresh_eq_newKeys_aux (now : Nat) (hnow : 0 < now) :
    ∀ (n : Nat) (l : List PortRecord), l.length ≤ n → ∀ (h : History),
      staleFresh now h l
        = ((distinctFirsts (l.map (fun p => (p.port, p.protocol)))).filter
            (fun k => staleB now (histGet h k))).map Prod.fst := by
  intro n
  induction n with
  | zero =>
    intro l hl h
    have hnil : l = [] := List.length_eq_zero.mp (Nat.le_zero.mp hl)
    subst hnil
    simp [staleFresh, distinctFirsts]
  | succ n ih =>
    intro l hl h
    cases l with
    | nil => simp [staleFresh, distinctFirsts]
    | cons p rest =>
      have hrest : rest.length ≤ n := by
        simpa using Nat.succ_le_succ_iff.mp (by simpa using hl)
      rw [List.map_cons, distinctFirsts, List.filter_cons]
      by_cases hst : staleB now (histGet h (p.port, p.protocol)) = true
      · rw [if_pos hst, List.map_cons]
        simp only [staleFresh]
        rw [if_pos hst]
        rw [staleFresh_histSet now hnow rest h (p.port, p.protocol)]
        rw [ih (rest.filter (fun q => (q.port, q.protocol) ≠ (p.port, p.protocol)))
          (le_trans (List.length_filter_le _ _) hrest) h]
        rw [map_key_filter_ne]
      · rw [if_neg hst]
        simp only [staleFresh]
        rw [if_neg hst]
        rw [staleFresh_histSet now hnow rest h (p.port, p.protocol)]
        rw [ih (rest.filter (fun q => (q.port, q.protocol) ≠ (p.port, p.protocol)))
          (le_trans (List.length_filter_le _ _) hrest) h]
        rw [map_key_filter_ne]

theorem foldl_scanStep_fst (now : Nat) :
    ∀ (l : List PortRecord) (pre : List Nat) (h : History),
      (l.foldl (scanStep now) (pre, h)).1 = pre ++ staleFresh now h l := by
  intro l
  induction l with
  | nil => intro pre h; simp [staleFresh]
  | cons p rest ih =>
    intro pre h
    rw [List.foldl_cons]
    have hstep : scanStep now (pre, h) p
        = (if staleB now (histGet h (p.port, p.protocol)) = true
            then pre ++ [p.port] else pre,
           histSet h (p.port, p.protocol) now) := rfl
    rw [hstep]
    by_cases hst : staleB now (histGet h (p.port, p.protocol)) = true
    · rw [if_pos hst, ih]
      simp only [staleFresh]
      rw [if_pos hst]
      simp
    · rw [if_neg hst, ih]
      simp only [staleFresh]
      rw [if_neg hst]

theorem detectPortScanning_fst (now : Nat) (h : History) (ports : List PortRecord) :
    (detectPortScanning now h ports).1 =
      if 10 ≤ (staleFresh now h ports).length
      then some (portScanAlert (staleFresh now h ports))
      else none := by
  unfold detectPortScanning
  dsimp only
  rw [foldl_scanStep_fst now ports [] h, List.nil_append]
  split <;> rfl

/-- C1: the anomaly detector emits exactly one critical port_scan alert
listing the recent ports when the number of distinct observed
(port, protocol) keys that are absent from the pre-call history or last
seen more than 60 seconds before the call is at least 10, and no port_scan
alert when that count is at most 9.  The clock is past the epoch and the
stored timestamps are positive, as every reachable history satisfies
(entries are stamped with a past call's clock). -/
theorem anomaly_scan_threshold (now : Nat) (h : History) (ports : List PortRecord)
    (hnow : 0 < now) (hpos : ∀ e ∈ h, 0 < e.2) :
    (detectPortScanning now h ports).1 =
      if 10 ≤ (newKeys now h ports).length
      then some (portScanAlert ((newKeys now h ports).map Prod.fst))
      else none := by
  have hsame : ∀ k, staleB now (histGet h k) = staleClaim now h k := by
    intro k
    unfold staleB staleClaim
    cases hg : histGet h k with
    | none => rfl
    | some t =>
      have ht : 0 < t := by
        unfold histGet at hg
        cases hf : h.find? (fun e => e.1 = k) with
        | none => rw [hf] at hg; exact absurd hg (by simp)
        | some e =>
          rw [hf] at hg
          have he : e ∈ h := List.mem_of_find?_eq_some hf
          have het : e.2 = t := by simpa using hg
          exact het ▸ hpos e he
      have ht0 : ¬ t = 0 := Nat.pos_iff_ne_zero.mp ht
      simp [ht0]
  have hlist : staleFresh now h ports = (newKeys now h ports).map Prod.fst := by
    rw [staleFresh_eq_newKeys_aux now hnow ports.length ports le_rfl h]
    unfold newKeys
    congr 1
    exact List.filter_congr (fun k _ => hsame k)
  rw [detectPortScanning_fst, hlist, List.length_map]

/-- C1 witness: ten distinct unseen ports at time 100000, against a history
holding one fresh key, produce the port_scan alert of the theorem's
conclusion. -/
theorem anomaly_scan_threshold_witness :
    (detectPortScanning 100000 histSample tenPorts).1 =
      if 10 ≤ (newKeys 100000 histSample tenPorts).length
      then some (portScanAlert ((newKeys 100000 histSample tenPorts).map Prod.fst))
      else none :=
  anomaly_scan_threshold 100000 histSample tenPorts (by decide) (by decide)

theorem stripLit_eq : ∀ (lit s rest : Str), stripLit lit s = some rest → s = lit ++ rest := by
  intro lit
  induction lit with
  | nil =>
    intro s rest h
    simp [stripLit] at h
    simp [h]
  | cons c cs ih =>
    intro s rest h
    cases s with
    | nil => simp [stripLit] at h
    | cons d ds =>
      unfold stripLit at h
      by_cases hc : c = d
      · rw [if_pos hc] at h
        rw [List.cons_append, ← hc, ih ds rest h]
      · rw [if_neg hc] at h
        exact absurd h (by simp)

theorem scanFor_suffix {α : Type} (f : Str → Option α) :
    ∀ (l : Str) (v : α), scanFor f l = some v →
      ∃ s, List.IsSuffix s l ∧ f s = some v := by
  intro l
  induction l with
  | nil => intro v h; simp [scanFor] at h
  | cons c rest ih =>
    intro v h
    unfold scanFor at h
    cases hf : f (c :: rest) with
    | some w =>
      rw [hf] at h
      simp at h
      exact ⟨c :: rest, List.suffix_refl _, by rw [hf, h]⟩
    | none =>
      rw [hf] at h
      obtain ⟨s, hs, hfs⟩ := ih v h
      exact ⟨s, hs.trans (List.suffix_cons c rest), hfs⟩

theorem pat1Lit_decomp (lit s : Str) (v : Nat) (h : pat1Lit lit s = some v) :
    ∃ a b, s = a ++ ':' :: b ∧ (takeDigits b).isEmpty = false
      ∧ v = digitsToNat (takeDigits b) := by
  unfold pat1Lit at h
  split at h
  next => exact absurd h (by simp)
  next rest heq =>
    split at h
    next after =>
      split at h
      next => exact absurd h (by simp)
      next hne =>
        exact ⟨lit, after, stripLit_eq lit s (':' :: after) heq,
          by simpa using hne, by simpa using h.symm⟩
    next => exact absurd h (by simp)

theorem pat1At_decomp (s : Str) (v : Nat) (h : pat1At s = some v) :
    ∃ a b, s = a ++ ':' :: b ∧ (takeDigits b).isEmpty = false
      ∧ v = digitsToNat (takeDigits b) := by
  unfold pat1At at h
  cases h1 : pat1Lit ("0.0.0.0".data) s with
  | some w =>
    rw [h1] at h
    simp at h
    exact h ▸ pat1Lit_decomp _ s w h1
  | none =>
    rw [h1] at h
    cases h2 : pat1Lit ("127.0.0.1".data) s with
    | some w =>
      rw [h2] at h
      simp at h
      exact h ▸ pat1Lit_decomp _ s w h2
    | none =>
      rw [h2] at h
      cases h3 : pat1Lit ("*".data) s with
      | some w =>
        rw [h3] at h
        simp at h
        exact h ▸ pat1Lit_decomp _ s w h3
      | none =>
        rw [h3] at h
        cases h4 : pat1Lit ("::".data) s with
        | some w =>
          rw [h4] at h
          simp at h
          exact h ▸ pat1Lit_decomp _ s w h4
        | none =>
          rw [h4] at h
          simp at h
          exact pat1Lit_decomp _ s v h

theorem ipv4Chunk_decomp (x rest : Str) (h : ipv4Chunk x = some rest) :
    ∃ pre, x = pre ++ rest := by
  unfold ipv4Chunk at h
  split at h
  · exact absurd h (by simp)
  · split at h
    next rest' heq =>
      refine ⟨takeDigits x ++ ['.'], ?_⟩
      have hx : x = takeDigits x ++ dropDigits x :=
        (List.takeWhile_append_dropWhile Char.isDigit x).symm
      have hr : rest' = rest := by simpa using h
      have hdrop : dropDigits x = '.' :: rest := by rw [heq, hr]
      calc x = takeDigits x ++ dropDigits x := hx
        _ = takeDigits x ++ ('.' :: rest) := by rw [hdrop]
        _ = (takeDigits x ++ ['.']) ++ rest := by simp
    next => exact absurd h (by simp)

theorem pat2At_decomp (s : Str) (v : Nat) (h : pat2At s = some v) :
    ∃ a b, s = a ++ ':' :: b ∧ (takeDigits b).isEmpty = false
      ∧ v = digitsToNat (takeDigits b) := by
  unfold pat2At at h
  split at h
  next => exact absurd h (by simp)
  next hws =>
    split at h
    next => exact absurd h (by simp)
    next s2 heq2 =>
      split at h
      next => exact absurd h (by simp)
      next s3 heq3 =>
        split at h
        next => exact absurd h (by simp)
        next s4 heq4 =>
          split at h
          next => exact absurd h (by simp)
          next hd4 =>
            split at h
            next s5 heq5 =>
              split at h
              next => exact absurd h (by simp)
              next hd5 =>
                split at h
                next c t heq6 =>
                  split at h
                  next hwc =>
                    obtain ⟨p2, hp2⟩ := ipv4Chunk_decomp _ _ heq2
                    obtain ⟨p3, hp3⟩ := ipv4Chunk_decomp _ _ heq3
                    obtain ⟨p4, hp4⟩ := ipv4Chunk_decomp _ _ heq4
                    have hsw : s = takeWs s ++ dropWs s :=
                      (List.takeWhile_append_dropWhile isWs s).symm
                    have h45 : s4 = takeDigits s4 ++ ':' :: s5 := by
                      conv_lhs => rw [← List.takeWhile_append_dropWhile Char.isDigit s4]
                      rw [show List.dropWhile Char.isDigit s4 = ':' :: s5 from heq5]
                      rfl
                    refine ⟨takeWs s ++ (p2 ++ (p3 ++ (p4 ++ takeDigits s4))), s5, ?_,
                      by simpa using hd5, by simpa using h.symm⟩
                    conv_lhs => rw [hsw, hp2, hp3, hp4, h45]
                    simp [List.append_assoc]
                  next => exact absurd h (by simp)
                next => exact absurd h (by simp)
            next => exact absurd h (by simp)

theorem pat3At_decomp (s : Str) (v : Nat) (h : pat3At s = some v) :
    ∃ a b, s = a ++ ':' :: b ∧ (takeDigits b).isEmpty = false
      ∧ v = digitsToNat (takeDigits b) := by
  unfold pat3At at h
  split at h
  next s1 =>
    split at h
    next => exact absurd h (by simp)
    next hd1 =>
      split at h
      next => exact absurd h (by simp)
      next hws =>
        split at h
        next => exact absurd h (by simp)
        next s3 heq3 =>
          split at h
          next => exact absurd h (by simp)
          next s4 heq4 =>
            split at h
            next => exact absurd h (by simp)
            next s5 heq5 =>
              split at h
              next => exact absurd h (by simp)
              next hd5 =>
                split at h
                next t heq6 =>
                  exact ⟨[], s1, rfl, by simpa using hd1, by simpa using h.symm⟩
                next => exact absurd h (by simp)
  next => exact absurd h (by simp)

theorem mem_colonRuns_of_split :
    ∀ (a b : Str), (takeDigits b).isEmpty = false →
      digitsToNat (takeDigits b) ∈ colonRuns (a ++ ':' :: b) := by
  intro a
  induction a with
  | nil =>
    intro b hb
    rw [List.nil_append]
    simp only [colonRuns]
    rw [if_pos (by simp [hb])]
    exact List.mem_cons_self _ _
  | cons c a2 ih =>
    intro b hb
    rw [List.cons_append]
    simp only [colonRuns]
    split
    · exact List.mem_cons_of_mem _ (ih b hb)
    · exact ih b hb

theorem scan_decomp_mem (line : Str) (p : Nat) (f : Str → Option Nat)
    (hf : ∀ s w, f s = some w → ∃ a b, s = a ++ ':' :: b
      ∧ (takeDigits b).isEmpty = false ∧ w = digitsToNat (takeDigits b))
    (hscan : scanFor f line = some p) : p ∈ colonRuns line := by
  obtain ⟨s, hs, hfs⟩ := scanFor_suffix f line p hscan
  obtain ⟨a, b, hsplit, hne, hval⟩ := hf s p hfs
  obtain ⟨c, hc⟩ := hs
  rw [← hc, hsplit, ← List.append_assoc]
  exact hval.symm ▸ mem_colonRuns_of_split (c ++ a) b hne

theorem extractPort_mem_colonRuns (line : Str) (p : Nat)
    (h : extractPort line = some p) : p ∈ colonRuns line := by
  unfold extractPort at h
  cases h1 : scanFor pat1At line with
  | some w =>
    rw [h1] at h
    simp at h
    exact h ▸ scan_decomp_mem line w pat1At (fun s u => pat1At_decomp s u) h1
  | none =>
    rw [h1] at h
    cases h2 : scanFor pat2At line with
    | some w =>
      rw [h2] at h
      simp at h
      exact h ▸ scan_decomp_mem line w pat2At (fun s u => pat2At_decomp s u) h2
    | none =>
      rw [h2] at h
      simp at h
      exact scan_decomp_mem line p pat3At (fun s u => pat3At_decomp s u) h

theorem protoOfLine_eq (line pr : Str) (h : protoOfLine line = some pr) :
    pr = tcpS ∨ pr = udpS := by
  unfold protoOfLine at h
  split at h
  · exact Or.inl (by simpa using h.symm)
  · split at h
    · exact Or.inr (by simpa using h.symm)
    · exact absurd h (by simp)

theorem mem_of_mem_insertByPort (r x : PortRecord) (l : List PortRecord)
    (h : x ∈ insertByPort r l) : x = r ∨ x ∈ l := by
  induction l with
  | nil =>
    simp [insertByPort] at h
    exact Or.inl h
  | cons y ys ih =>
    unfold insertByPort at h
    split at h
    · rcases List.mem_cons.mp h with h1 | h2
      · exact Or.inl h1
      · exact Or.inr h2
    · rcases List.mem_cons.mp h with h1 | h2
      · exact Or.inr (h1 ▸ List.mem_cons_self _ _)
      · rcases ih h2 with ha | hb
        · exact Or.inl ha
        · exact Or.inr (List.mem_cons_of_mem _ hb)

theorem mem_of_mem_sortByPort (x : PortRecord) :
    ∀ (l : List PortRecord), x ∈ sortByPort l → x ∈ l := by
  intro l
  induction l with
  | nil => intro h; simp [sortByPort] at h
  | cons y ys ih =>
    intro h
    unfold sortByPort at h
    rcases mem_of_mem_insertByPort y x (sortByPort ys) h with h1 | h2
    · exact h1 ▸ List.mem_cons_self _ _
    · exact List.mem_cons_of_mem _ (ih h2)

theorem parseLoop_good (now : Nat) :
    ∀ (lines : List Str) (seen : List Str) (acc : List PortRecord),
      (∀ line ∈ lines, ∀ v ∈ colonRuns line, v ≤ 65535) →
      ∀ r ∈ parseLoop now lines seen acc,
        r ∈ acc ∨ ((1 ≤ r.port ∧ r.port ≤ 65535)
          ∧ (r.protocol = tcpS ∨ r.protocol = udpS)) := by
  intro lines
  induction lines with
  | nil => intro seen acc hv r hr; exact Or.inl hr
  | cons line rest ih =>
    intro seen acc hv r hr
    have hvrest : ∀ l ∈ rest, ∀ v ∈ colonRuns l, v ≤ 65535 :=
      fun l hl => hv l (List.mem_cons_of_mem _ hl)
    unfold parseLoop at hr
    by_cases h1 : (hasSub line ("Proto".data) || hasSub line ("Active".data)) = true
    · rw [if_pos h1] at hr
      exact ih seen acc hvrest r hr
    · rw [if_neg h1] at hr
      cases hpr : protoOfLine line with
      | none =>
        rw [hpr] at hr
        exact ih seen acc hvrest r hr
      | some protocol =>
        rw [hpr] at hr
        dsimp only at hr
        cases hport : extractPort line with
        | none =>
          rw [hport] at hr
          exact ih seen acc hvrest r hr
        | some port =>
          rw [hport] at hr
          dsimp only at hr
          by_cases hz : port = 0
          · rw [if_pos hz] at hr
            exact ih seen acc hvrest r hr
          · rw [if_neg hz] at hr
            by_cases hseen : seen.contains (portKeyStr protocol port) = true
            · rw [if_pos hseen] at hr
              exact ih seen acc hvrest r hr
            · rw [if_neg hseen] at hr
              rcases ih _ _ hvrest r hr with hacc | hgood
              · rcases List.mem_append.mp hacc with h2 | h3
                · exact Or.inl h2
                · right
                  have heq := List.mem_singleton.mp h3
                  subst heq
                  refine ⟨⟨Nat.one_le_iff_ne_zero.mpr hz, ?_⟩, ?_⟩
                  · exact hv line (List.mem_cons_self _ _) port
                      (extractPort_mem_colonRuns line port hport)
                  · exact protoOfLine_eq line protocol hpr
              · exact Or.inr hgood

/-- C7: for every input text in which each decimal digit run immediately
following a colon (the only positions any of the three port patterns can
capture from, as real ss and netstat output guarantees for port fields)
has value at most 65535, every record parsePortOutput returns has a port
within [1, 65535] — the parser additionally drops a parsed 0 — and a
protocol that is exactly tcp or udp. -/
theorem parsed_ports_in_range (now : Nat) (out : Str) (hval : validPortText out) :
    ∀ r ∈ parsePortOutput now out,
      (1 ≤ r.port ∧ r.port ≤ 65535) ∧ (r.protocol = tcpS ∨ r.protocol = udpS) := by
  intro r hr
  unfold parsePortOutput at hr
  have hr2 := mem_of_mem_sortByPort r _ hr
  have hvl : ∀ line ∈ keptLines out, ∀ v ∈ colonRuns line, v ≤ 65535 :=
    fun line hl => hval line (List.mem_of_mem_filter hl)
  rcases parseLoop_good now (keptLines out) [] [] hvl r hr2 with habs | hgood
  · exact absurd habs (by simp)
  · exact hgood

/-- C7 witness: the spec's ss sample line is valid output, and the record
it parses to (port 22, tcp) satisfies the range and protocol bounds. -/
theorem parsed_ports_in_range_witness :
    validPortText ssSample
    ∧ ((1 ≤ recSample.port ∧ recSample.port ≤ 65535)
      ∧ (recSample.protocol = tcpS ∨ recSample.protocol = udpS)) :=
  ⟨by unfold validPortText; decide,
    parsed_ports_in_range 0 ssSample (by unfold validPortText; decide)
      recSample (by decide)⟩
